import Mathlib

/-
Shallow embedding of the Nasir Store backend (src/main.py, src/schemas.py):
a FastAPI application exposing CRUD-style REST endpoints over MongoDB
collections ("product", "order", "testimonial", "contactmessage").

Modelling decisions:
* A MongoDB document is a typed record mirroring the Pydantic schema; a
  stored document carries an `oid : Nat` standing for its `_id` ObjectId
  (`str(_id)` becomes `toString oid`).
* The database is a record of one list per collection plus a fresh-id
  counter; `find_one(filt)` is `List.find?` with the filter as a boolean
  predicate, `update_one` updates the first matching document.
* Python `float` prices are embedded as `ℚ` (the claims involve only
  multiplication of money values by small integer multipliers, where
  float and rational arithmetic agree).
* Raising `HTTPException` before any write is embedded as returning the
  unchanged database paired with `Except.error`; every endpoint returns
  `DB × Except HErr response`.
* `datetime.utcnow()` is an explicit parameter (`now`).
* MongoDB `$regex` with `$options: "i"` (used only by `list_products`)
  is an explicit parameter `rmatch : String → String → Bool` standing
  for the case-insensitive regex matcher.
* Pydantic's `EmailStr` validator (used by the `OrderSchema(...)`
  construction inside `create_order`) is likewise an explicit parameter
  `emailOk : String → Bool`.  A `ValidationError` raised inside a
  handler is an unhandled exception, which FastAPI turns into an HTTP
  500 response; it is raised before `create_document` runs, so nothing
  is stored.
-/

namespace NasirStore

/-- An HTTP error: status code and detail string (FastAPI `HTTPException`). -/
structure HErr where
  status : Nat
  detail : String
deriving DecidableEq, Repr

/-- A stored product document (schemas.py `Product`).  `price_monthly` is
`Option ℚ` because `create_order` reads it with `product.get("price_monthly", 0)`,
defaulting to 0 when the field is absent from the raw document. -/
structure Product where
  name : String
  slug : String
  description : String
  short_description : String
  logo_url : Option String
  category : String
  durations : List String
  login_method : String
  price_monthly : Option ℚ
  price_lifetime : Option ℚ
  is_featured : Bool
  is_active : Bool
deriving DecidableEq, Repr

/-- The mock credentials dict built by `payment_notify` on a paid notification. -/
structure DeliveredPayload where
  username : String
  password : String
  note : String
deriving DecidableEq, Repr

/-- A stored order document (schemas.py `Order`), plus the `updated_at`
field `$set` by `payment_notify`. -/
structure Order where
  product_id : String
  product_name : String
  package : String
  price : ℚ
  buyer_name : String
  email : String
  whatsapp : String
  payment_method : String
  status : String
  order_code : Option String
  delivery_channel : String
  delivery_note : Option String
  delivered_payload : Option DeliveredPayload
  updated_at : Option Nat
deriving DecidableEq, Repr

/-- A testimonial document (schemas.py `Testimonial`). -/
structure Testimonial where
  name : String
  rating : Int
  comment : String
  product_slug : Option String
deriving DecidableEq, Repr

/-- A contact-form document (schemas.py `ContactMessage`). -/
structure ContactMessage where
  name : String
  email : String
  whatsapp : Option String
  message : String
deriving DecidableEq, Repr

/-- A product document as stored: `_id` plus the fields. -/
structure ProductDoc where
  oid : Nat
  doc : Product
deriving DecidableEq, Repr

/-- An order document as stored: `_id` plus the fields. -/
structure OrderDoc where
  oid : Nat
  doc : Order
deriving DecidableEq, Repr

/-- A testimonial document as stored: `_id` plus the fields. -/
structure TestimonialDoc where
  oid : Nat
  doc : Testimonial
deriving DecidableEq, Repr

/-- A contact-message document as stored: `_id` plus the fields. -/
structure ContactDoc where
  oid : Nat
  doc : ContactMessage
deriving DecidableEq, Repr

/-- The MongoDB database: one collection per schema (main.py `/schema`
lists exactly these four), plus a counter supplying fresh `_id`s. -/
structure DB where
  product : List ProductDoc
  order : List OrderDoc
  testimonial : List TestimonialDoc
  contactmessage : List ContactDoc
  nextId : Nat
deriving DecidableEq, Repr

/-- Modelled from the spec: `database.create_document` (database.py is not
under src/); per the spec the system is "direct pass-through to a database
driver", so insertion appends the document with a fresh `_id` and returns
the inserted id as a string.  This helper inserts into "product". -/
def insertProduct (d : DB) (p : Product) : DB × String :=
  ({ d with product := d.product ++ [⟨d.nextId, p⟩], nextId := d.nextId + 1 },
   toString d.nextId)

/-- Modelled from the spec: `database.create_document` for "order"
(see `insertProduct`). -/
def insertOrder (d : DB) (o : Order) : DB × String :=
  ({ d with order := d.order ++ [⟨d.nextId, o⟩], nextId := d.nextId + 1 },
   toString d.nextId)

/-- Modelled from the spec: `database.create_document` for "testimonial"
(see `insertProduct`). -/
def insertTestimonial (d : DB) (t : Testimonial) : DB × String :=
  ({ d with testimonial := d.testimonial ++ [⟨d.nextId, t⟩], nextId := d.nextId + 1 },
   toString d.nextId)

/-- Modelled from the spec: `database.create_document` for "contactmessage"
(see `insertProduct`). -/
def insertContact (d : DB) (c : ContactMessage) : DB × String :=
  ({ d with contactmessage := d.contactmessage ++ [⟨d.nextId, c⟩], nextId := d.nextId + 1 },
   toString d.nextId)

/-- MongoDB `update_one`: apply `f` to the first list element satisfying `p`. -/
def updateFirst (p : α → Bool) (f : α → α) : List α → List α
  | [] => []
  | x :: xs => if p x then f x :: xs else x :: updateFirst p f xs

/-- main.py `to_dict`: the returned document with `_id` converted to a string. -/
def productToDict (pd : ProductDoc) : String × Product :=
  (toString pd.oid, pd.doc)

/-- The filter document built by `list_products` (main.py lines 75-86),
evaluated on one product: `is_active: True`, equality on `category` when
the category parameter is truthy, equality on `is_featured` when the
featured parameter is given, and an `$or` of case-insensitive `$regex`
matches on `name`, `description`, `short_description` when `q` is truthy. -/
def productMatches (rmatch : String → String → Bool)
    (q category : Option String) (featured : Option Bool) (p : Product) : Bool :=
  p.is_active
  && (match category with
      | none => true
      | some c => if c == "" then true else p.category == c)
  && (match featured with
      | none => true
      | some b => p.is_featured == b)
  && (match q with
      | none => true
      | some s =>
        if s == "" then true
        else rmatch s p.name || rmatch s p.description || rmatch s p.short_description)

/-- FastAPI default for the `limit` query parameter of `list_products`
(main.py line 73, `Query(100, ge=1, le=200)`). -/
def list_products_default_limit : Nat := 100

/-- GET `/api/products` (main.py `list_products`): validates `limit`
(`ge=1, le=200`; FastAPI rejects out-of-range values with a 422 before the
handler runs), then returns the filtered collection truncated to `limit`. -/
def list_products (rmatch : String → String → Bool) (d : DB)
    (q category : Option String) (featured : Option Bool) (limit : Nat) :
    Except HErr (List (String × Product)) :=
  if 1 ≤ limit ∧ limit ≤ 200 then
    Except.ok
      (((d.product.filter fun pd => productMatches rmatch q category featured pd.doc).take
          limit).map productToDict)
  else
    Except.error ⟨422, "Invalid limit"⟩

/-- GET `/api/products/{slug}` (main.py `get_product`):
`find_one({"slug": slug, "is_active": True})`, 404 when no match. -/
def get_product (d : DB) (slug : String) : Except HErr (String × Product) :=
  match d.product.find? (fun pd => pd.doc.slug == slug && pd.doc.is_active) with
  | none => Except.error ⟨404, "Product not found"⟩
  | some pd => Except.ok (productToDict pd)

/-- The five sample products of main.py `seed_products` (lines 105-173). -/
def sampleProducts : List Product :=
  [{ name := "Netflix Premium",
     slug := "netflix-premium",
     description := "Akun Netflix Premium kualitas 4K. Garansi sesuai ketentuan. Metode login: Shared Profile.",
     short_description := "Netflix 4K, garansi, hemat.",
     logo_url := some "https://upload.wikimedia.org/wikipedia/commons/0/08/Netflix_2015_logo.svg",
     category := "Streaming",
     durations := ["1 Month", "3 Months", "12 Months"],
     login_method := "Shared",
     price_monthly := some 35000,
     price_lifetime := none,
     is_featured := true,
     is_active := true },
   { name := "Spotify Premium",
     slug := "spotify-premium",
     description := "Spotify Premium no ads, kualitas tinggi. Metode login: Invite Family/Shared.",
     short_description := "Musik bebas iklan.",
     logo_url := some "https://upload.wikimedia.org/wikipedia/commons/1/19/Spotify_logo_without_text.svg",
     category := "Music",
     durations := ["1 Month", "3 Months", "12 Months"],
     login_method := "Shared",
     price_monthly := some 15000,
     price_lifetime := none,
     is_featured := true,
     is_active := true },
   { name := "Canva Pro",
     slug := "canva-pro",
     description := "Canva Pro fitur lengkap. Metode login: Invite ke team.",
     short_description := "Desain tanpa batas.",
     logo_url := some "https://upload.wikimedia.org/wikipedia/commons/a/af/Canva_icon_2021.svg",
     category := "Design",
     durations := ["1 Month", "3 Months", "12 Months"],
     login_method := "Invite",
     price_monthly := some 20000,
     price_lifetime := none,
     is_featured := true,
     is_active := true },
   { name := "ChatGPT Plus",
     slug := "chatgpt-plus",
     description := "Akses GPT-4/Plus sesuai ketentuan penyedia. Metode: Shared.",
     short_description := "AI asisten premium.",
     logo_url := some "https://upload.wikimedia.org/wikipedia/commons/0/04/ChatGPT_logo.svg",
     category := "AI",
     durations := ["1 Month", "3 Months"],
     login_method := "Shared",
     price_monthly := some 120000,
     price_lifetime := none,
     is_featured := false,
     is_active := true },
   { name := "YouTube Premium",
     slug := "youtube-premium",
     description := "YouTube Premium bebas iklan. Metode: Invite Family.",
     short_description := "Streaming tanpa iklan.",
     logo_url := some "https://upload.wikimedia.org/wikipedia/commons/e/ef/Youtube_logo.png",
     category := "Streaming",
     durations := ["1 Month", "3 Months", "12 Months"],
     login_method := "Invite",
     price_monthly := some 20000,
     price_lifetime := none,
     is_featured := false,
     is_active := true }]

/-- Response of POST `/api/seed`. -/
structure SeedResponse where
  seeded : Bool
  count : Option Nat
  message : Option String
deriving DecidableEq, Repr

/-- POST `/api/seed` (main.py `seed_products`): seed only if the product
collection is empty, inserting the five samples via `create_document`. -/
def seed_products (d : DB) : DB × SeedResponse :=
  if d.product.length > 0 then
    (d, ⟨false, none, some "Products already exist"⟩)
  else
    (sampleProducts.foldl (fun acc p => (insertProduct acc p).1) d,
     ⟨true, some sampleProducts.length, none⟩)

/-- Request body of POST `/api/orders` (main.py `OrderCreate`). -/
structure OrderCreate where
  product_slug : String
  package : String
  buyer_name : String
  email : String
  whatsapp : String
  payment_method : String
  delivery_channel : String
deriving DecidableEq, Repr

/-- main.py `generate_order_code`: "NS-" followed by the UTC timestamp
(the timestamp string is a parameter here). -/
def generate_order_code (now : String) : String := "NS-" ++ now

/-- The package-to-multiplier table of `create_order` (main.py lines
202-208), read with dict `.get` (so `none` for any other package string). -/
def packageMultiplier (pkg : String) : Option ℚ :=
  if pkg == "1 Month" then some 1
  else if pkg == "3 Months" then some 3
  else if pkg == "6 Months" then some 6
  else if pkg == "12 Months" then some 12
  else if pkg == "Lifetime" then some 20
  else none

/-- The mock payment-instruction dict of `create_order` (main.py lines
230-248), as a key-value list; dict `.get` with the fallback entry. -/
def payment_instructions (pm : String) : List (String × String) :=
  if pm == "QRIS" then
    [("type", "qris"),
     ("note", "Scan QR berikut di aplikasi e-wallet Anda"),
     ("qr_image", "https://api.qrserver.com/v1/create-qr-code/?size=220x220&data=NASIR-STORE-DEMO")]
  else if pm == "Bank Transfer" then
    [("type", "bank"),
     ("bank", "BCA"),
     ("account_name", "NASIR STORE"),
     ("account_number", "1234567890")]
  else if pm == "E-Wallet" then
    [("type", "ewallet"),
     ("provider", "OVO/DANA/GoPay"),
     ("number", "0812-3456-7890"),
     ("name", "NASIR STORE")]
  else
    [("type", "info"), ("note", "Follow admin instruction")]

/-- Response of POST `/api/orders` (main.py lines 250-258). -/
structure OrderResponse where
  order_id : String
  order_code : String
  status : String
  amount : ℚ
  product_name : String
  package : String
  payment : List (String × String)
deriving DecidableEq, Repr

/-- The `OrderSchema(...)` record constructed by `create_order`
(main.py lines 214-226). -/
def builtOrder (product : ProductDoc) (payload : OrderCreate) (price : ℚ)
    (order_code : String) : Order :=
  { product_id := toString product.oid,
    product_name := product.doc.name,
    package := payload.package,
    price := price,
    buyer_name := payload.buyer_name,
    email := payload.email,
    whatsapp := payload.whatsapp,
    payment_method := payload.payment_method,
    status := "pending",
    order_code := some order_code,
    delivery_channel := payload.delivery_channel,
    delivery_note := none,
    delivered_payload := none,
    updated_at := none }

/-- The Pydantic validation run by the `OrderSchema(...)` construction
(schemas.py lines 36-49): `package`, `payment_method`, `status` and
`delivery_channel` must hit their `Literal` alternatives, `price` has
`ge=0`, and `email` must pass `EmailStr` (the `emailOk` parameter).
The unconstrained `str`/`Optional` fields validate trivially. -/
def orderSchemaValid (emailOk : String → Bool) (o : Order) : Bool :=
  (o.package == "1 Month" || o.package == "3 Months" || o.package == "6 Months"
    || o.package == "12 Months" || o.package == "Lifetime")
  && decide (0 ≤ o.price)
  && emailOk o.email
  && (o.payment_method == "QRIS" || o.payment_method == "Bank Transfer"
      || o.payment_method == "E-Wallet")
  && (o.status == "pending" || o.status == "paid" || o.status == "delivered"
      || o.status == "failed")
  && (o.delivery_channel == "email" || o.delivery_channel == "whatsapp"
      || o.delivery_channel == "both")

/-- POST `/api/orders` (main.py `create_order`): look the product up by
slug only, price it as `price_monthly` (default 0) times the package
multiplier (400 on an unknown package), construct the `OrderSchema`
(whose Pydantic validation raises a `ValidationError` — an HTTP 500 —
before anything is stored when it fails), insert the pending order, and
return the mock payment instructions. -/
def create_order (emailOk : String → Bool) (d : DB) (payload : OrderCreate)
    (now : String) : DB × Except HErr OrderResponse :=
  match d.product.find? (fun pd => pd.doc.slug == payload.product_slug) with
  | none => (d, Except.error ⟨404, "Product not found"⟩)
  | some product =>
    let base : ℚ := product.doc.price_monthly.getD 0
    match packageMultiplier payload.package with
    | none => (d, Except.error ⟨400, "Invalid package"⟩)
    | some multiplier =>
      let price := base * multiplier
      let order_code := generate_order_code now
      let order := builtOrder product payload price order_code
      if orderSchemaValid emailOk order then
        let inserted := insertOrder d order
        (inserted.1,
         Except.ok
           { order_id := inserted.2,
             order_code := order_code,
             status := "pending",
             amount := price,
             product_name := product.doc.name,
             package := payload.package,
             payment := payment_instructions payload.payment_method })
      else
        (d, Except.error ⟨500, "Internal Server Error"⟩)

/-- GET `/api/orders/{order_code}` (main.py `get_order`). -/
def get_order (d : DB) (order_code : String) : Except HErr (String × Order) :=
  match d.order.find? (fun od => od.doc.order_code == some order_code) with
  | none => Except.error ⟨404, "Order not found"⟩
  | some od => Except.ok (toString od.oid, od.doc)

/-- Request body of POST `/api/payments/notify` (main.py `PaymentNotify`). -/
structure PaymentNotify where
  order_code : String
  status : String
deriving DecidableEq, Repr

/-- Response of POST `/api/payments/notify`. -/
structure NotifyResponse where
  updated : Bool
  status : String
  delivered_payload : Option DeliveredPayload
deriving DecidableEq, Repr

/-- The demo credentials dict built by `payment_notify` (main.py lines
285-289): the f-string `demo_{order_code.lower()}@nasirstore.io` and the
constant password. -/
def deliveryPayloadFor (order_code : String) : DeliveredPayload :=
  { username := "demo_" ++ order_code.toLower ++ "@nasirstore.io",
    password := "AutoGenerated123!",
    note := "Gunakan kredensial ini sesuai ketentuan. Ini demo." }

/-- The `$set` document of the paid branch of `payment_notify` (main.py
lines 290-293), applied to one stored order. -/
def paidUpdate (dp : DeliveredPayload) (now : Nat) (od : OrderDoc) : OrderDoc :=
  { od with doc :=
    { od.doc with
        status := "delivered",
        delivered_payload := some dp,
        updated_at := some now } }

/-- The `$set` document of the non-paid branch of `payment_notify`
(main.py lines 296-299), applied to one stored order. -/
def failedUpdate (new_status : String) (now : Nat) (od : OrderDoc) : OrderDoc :=
  { od with doc := { od.doc with status := new_status, updated_at := some now } }

/-- POST `/api/payments/notify` (main.py `payment_notify`): find the order
by `order_code` (404 when absent); on status "paid" store status
"delivered" with demo credentials, otherwise store status "failed". -/
def payment_notify (d : DB) (payload : PaymentNotify) (now : Nat) :
    DB × Except HErr NotifyResponse :=
  match d.order.find? (fun od => od.doc.order_code == some payload.order_code) with
  | none => (d, Except.error ⟨404, "Order not found"⟩)
  | some order =>
    let new_status := if payload.status == "paid" then "paid" else "failed"
    if new_status == "paid" then
      let delivery_payload := deliveryPayloadFor payload.order_code
      ({ d with
          order := updateFirst (fun od => od.oid == order.oid)
            (paidUpdate delivery_payload now) d.order },
       Except.ok ⟨true, "delivered", some delivery_payload⟩)
    else
      ({ d with
          order := updateFirst (fun od => od.oid == order.oid)
            (failedUpdate new_status now) d.order },
       Except.ok ⟨true, new_status, none⟩)

/-- Response of the insertion endpoints (testimonials, contact). -/
structure InsertedResponse where
  inserted_id : String
deriving DecidableEq, Repr

/-- POST `/api/testimonials` (main.py `create_testimonial`). -/
def create_testimonial (d : DB) (body : Testimonial) : DB × InsertedResponse :=
  let inserted := insertTestimonial d body
  (inserted.1, ⟨inserted.2⟩)

/-- POST `/api/contact` (main.py `create_contact`). -/
def create_contact (d : DB) (body : ContactMessage) : DB × InsertedResponse :=
  let inserted := insertContact d body
  (inserted.1, ⟨inserted.2⟩)

/-- Validity of a testimonial request body under the schema's constraint
`rating: int = Field(..., ge=1, le=5)`. -/
def Testimonial.valid (t : Testimonial) : Prop :=
  1 ≤ t.rating ∧ t.rating ≤ 5

/-- A product whose `price_lifetime` and `durations` have been erased;
used to state that `create_order` never consults those two fields. -/
def scrub (p : Product) : Product :=
  { p with price_lifetime := none, durations := [] }

/-- `scrub` lifted to stored documents. -/
def scrubDoc (pd : ProductDoc) : ProductDoc :=
  ⟨pd.oid, scrub pd.doc⟩

/-- Concrete active product used in example runs. -/
def egProduct : Product :=
  { name := "Netflix Premium",
    slug := "netflix-premium",
    description := "Akun Netflix Premium kualitas 4K.",
    short_description := "Netflix 4K.",
    logo_url := none,
    category := "Streaming",
    durations := ["1 Month", "3 Months", "12 Months"],
    login_method := "Shared",
    price_monthly := some 35000,
    price_lifetime := none,
    is_featured := true,
    is_active := true }

/-- Concrete database with one active product. -/
def egDB : DB :=
  { product := [⟨1, egProduct⟩],
    order := [],
    testimonial := [],
    contactmessage := [],
    nextId := 2 }

/-- Concrete inactive product (same slug). -/
def egProductInactive : Product :=
  { egProduct with is_active := false }

/-- Concrete database whose only product is inactive. -/
def egDBInactive : DB :=
  { product := [⟨1, egProductInactive⟩],
    order := [],
    testimonial := [],
    contactmessage := [],
    nextId := 2 }

/-- Concrete empty database. -/
def egEmptyDB : DB :=
  { product := [], order := [], testimonial := [], contactmessage := [], nextId := 1 }

/-- Concrete instantiation of the `EmailStr` validator parameter used in
example runs: accept any string containing an `@`. -/
def egEmailOk : String → Bool :=
  fun e => e.data.contains '@'

/-- Concrete order-creation request. -/
def egOC : OrderCreate :=
  { product_slug := "netflix-premium",
    package := "3 Months",
    buyer_name := "Budi",
    email := "budi@example.com",
    whatsapp := "0812",
    payment_method := "QRIS",
    delivery_channel := "email" }

/-- A second order-creation request with the same payment method but a
different package and buyer. -/
def egOC2 : OrderCreate :=
  { product_slug := "netflix-premium",
    package := "1 Month",
    buyer_name := "Sari",
    email := "sari@example.com",
    whatsapp := "0813",
    payment_method := "QRIS",
    delivery_channel := "whatsapp" }

/-- Concrete pending order document. -/
def egOrder : Order :=
  { product_id := "1",
    product_name := "Netflix Premium",
    package := "3 Months",
    price := 105000,
    buyer_name := "Budi",
    email := "budi@example.com",
    whatsapp := "0812",
    payment_method := "QRIS",
    status := "pending",
    order_code := some "NS-20250101",
    delivery_channel := "email",
    delivery_note := none,
    delivered_payload := none,
    updated_at := none }

/-- Concrete database holding `egOrder`. -/
def egDBOrders : DB :=
  { product := [⟨1, egProduct⟩],
    order := [⟨2, egOrder⟩],
    testimonial := [],
    contactmessage := [],
    nextId := 3 }

/-- Concrete testimonial request body. -/
def egTestimonial : Testimonial :=
  { name := "Budi", rating := 5, comment := "Mantap", product_slug := some "netflix-premium" }

/-- Concrete contact request body. -/
def egContact : ContactMessage :=
  { name := "Sari", email := "sari@example.com", whatsapp := none, message := "Halo" }

/-- The request `egOC` with a package string outside the multiplier table. -/
def egOCBad : OrderCreate :=
  { egOC with package := "Weekly" }

/-- The order document that `create_order egDB egOC "T1"` stores. -/
def egCreatedOrderDoc : OrderDoc :=
  ⟨2,
   { product_id := "1",
     product_name := "Netflix Premium",
     package := "3 Months",
     price := 35000 * 3,
     buyer_name := "Budi",
     email := "budi@example.com",
     whatsapp := "0812",
     payment_method := "QRIS",
     status := "pending",
     order_code := some "NS-T1",
     delivery_channel := "email",
     delivery_note := none,
     delivered_payload := none,
     updated_at := none }⟩

theorem updateFirst_length (p : α → Bool) (f : α → α) (l : List α) :
    (updateFirst p f l).length = l.length := by
  induction l with
  | nil => rfl
  | cons x xs ih =>
    by_cases h : p x <;> simp [updateFirst, h, ih]

theorem mem_updateFirst (p : α → Bool) (f : α → α) {y : α} {l : List α}
    (hy : y ∈ updateFirst p f l) :
    y ∈ l ∨ ∃ x, x ∈ l ∧ p x = true ∧ y = f x := by
  induction l with
  | nil => simp [updateFirst] at hy
  | cons x xs ih =>
    by_cases h : p x
    · simp only [updateFirst, h, if_pos] at hy
      rcases List.mem_cons.mp hy with h1 | h1
      · exact Or.inr ⟨x, List.mem_cons_self x xs, h, h1⟩
      · exact Or.inl (List.mem_cons_of_mem x h1)
    · simp only [updateFirst, h, if_neg, Bool.false_eq_true, not_false_iff] at hy
      rcases List.mem_cons.mp hy with h1 | h1
      · exact Or.inl (h1 ▸ List.mem_cons_self x xs)
      · rcases ih h1 with h2 | ⟨z, hz, hpz, hyz⟩
        · exact Or.inl (List.mem_cons_of_mem x h2)
        · exact Or.inr ⟨z, List.mem_cons_of_mem x hz, hpz, hyz⟩

theorem updateFirst_exists (p : α → Bool) (f : α → α) {l : List α}
    (h : ∃ x, x ∈ l ∧ p x = true) :
    ∃ x, x ∈ l ∧ p x = true ∧ f x ∈ updateFirst p f l := by
  induction l with
  | nil => rcases h with ⟨x, hx, _⟩; simp at hx
  | cons a xs ih =>
    by_cases ha : p a
    · exact ⟨a, List.mem_cons_self a xs, ha, by simp [updateFirst, ha]⟩
    · have h' : ∃ x, x ∈ xs ∧ p x = true := by
        rcases h with ⟨x, hx, hpx⟩
        rcases List.mem_cons.mp hx with h1 | h1
        · exact absurd (h1 ▸ hpx) (by simpa using ha)
        · exact ⟨x, h1, hpx⟩
      rcases ih h' with ⟨x, hx, hpx, hfx⟩
      exact ⟨x, List.mem_cons_of_mem a hx, hpx,
        by simp only [updateFirst, ha, if_neg, Bool.false_eq_true, not_false_iff];
           exact List.mem_cons_of_mem a hfx⟩

theorem find?_map_eq (f : α → β) (p : β → Bool) (l : List α) :
    (l.map f).find? p = (l.find? (fun a => p (f a))).map f := by
  induction l with
  | nil => rfl
  | cons a l ih =>
    by_cases h : p (f a)
    · simp [List.find?, h]
    · simp only [List.map_cons, List.find?, h]
      exact ih

theorem seedFold_product_doc (ps : List Product) (d : DB) :
    ((ps.foldl (fun acc p => (insertProduct acc p).1) d).product.map ProductDoc.doc)
      = d.product.map ProductDoc.doc ++ ps := by
  induction ps generalizing d with
  | nil => simp
  | cons p ps ih =>
    simp only [List.foldl_cons]
    rw [ih]
    simp [insertProduct]

theorem seedFold_frame (ps : List Product) (d : DB) :
    ((ps.foldl (fun acc p => (insertProduct acc p).1) d).order = d.order) ∧
    ((ps.foldl (fun acc p => (insertProduct acc p).1) d).testimonial = d.testimonial) ∧
    ((ps.foldl (fun acc p => (insertProduct acc p).1) d).contactmessage = d.contactmessage) := by
  induction ps generalizing d with
  | nil => exact ⟨rfl, rfl, rfl⟩
  | cons p ps ih =>
    simp only [List.foldl_cons]
    exact ih _

/-- C5: `get_product` returns the stored product document (with `_id` as a
string) exactly when a product with that slug has `is_active = true`, and
raises 404 "Product not found" otherwise (in particular for an inactive
product).  The embedding of `get_product` is a pure function of the
database, so it modifies nothing. -/
theorem get_product_spec (d : DB) (slug : String) :
    (∀ out, get_product d slug = Except.ok out →
      ∃ pd, pd ∈ d.product ∧ pd.doc.slug = slug ∧ pd.doc.is_active = true ∧
        out = (toString pd.oid, pd.doc)) ∧
    ((∃ pd, pd ∈ d.product ∧ pd.doc.slug = slug ∧ pd.doc.is_active = true) →
      ∃ out, get_product d slug = Except.ok out) ∧
    ((∀ pd, pd ∈ d.product → ¬(pd.doc.slug = slug ∧ pd.doc.is_active = true)) →
      get_product d slug = Except.error ⟨404, "Product not found"⟩) := by
  refine ⟨?_, ?_, ?_⟩
  · intro out hout
    cases hf : d.product.find? (fun pd => pd.doc.slug == slug && pd.doc.is_active) with
    | none => simp [get_product, hf] at hout
    | some pd =>
      have hmem := List.mem_of_find?_eq_some hf
      have hpred := List.find?_some hf
      simp only [Bool.and_eq_true, beq_iff_eq] at hpred
      refine ⟨pd, hmem, hpred.1, hpred.2, ?_⟩
      simp [get_product, hf, productToDict] at hout
      simp [hout, productToDict]
  · rintro ⟨pd, hmem, hslug, hact⟩
    cases hf : d.product.find? (fun pd => pd.doc.slug == slug && pd.doc.is_active) with
    | none =>
      have := List.find?_eq_none.mp hf pd hmem
      simp [hslug, hact] at this
    | some pd0 => exact ⟨productToDict pd0, by simp [get_product, hf]⟩
  · intro hall
    have hf : d.product.find? (fun pd => pd.doc.slug == slug && pd.doc.is_active) = none := by
      refine List.find?_eq_none.mpr ?_
      intro pd hmem
      have := hall pd hmem
      simp only [Bool.and_eq_true, beq_iff_eq]
      tauto
    simp [get_product, hf]

/-- C5 witness: on a concrete database, the lookup succeeds for an active
product and fails with 404 when the only matching product is inactive. -/
theorem get_product_spec_witness :
    (∃ out, get_product egDB "netflix-premium" = Except.ok out) ∧
    get_product egDBInactive "netflix-premium" = Except.error ⟨404, "Product not found"⟩ := by
  constructor
  · exact (get_product_spec egDB "netflix-premium").2.1
      ⟨⟨1, egProduct⟩, by decide, by decide, by decide⟩
  · exact (get_product_spec egDBInactive "netflix-premium").2.2 (by decide)

/-- C7: `create_testimonial` and `create_contact` append exactly the
validated document (with a fresh id) to the "testimonial" and
"contactmessage" collections respectively, return the inserted id, and
leave every other collection — and, since insertion appends, every
pre-existing document — unchanged. -/
theorem insert_endpoints_frame_spec (d : DB) (t : Testimonial) (c : ContactMessage)
    (_ht : t.valid) :
    ((create_testimonial d t).1.testimonial = d.testimonial ++ [⟨d.nextId, t⟩] ∧
     (create_testimonial d t).2.inserted_id = toString d.nextId ∧
     (create_testimonial d t).1.product = d.product ∧
     (create_testimonial d t).1.order = d.order ∧
     (create_testimonial d t).1.contactmessage = d.contactmessage) ∧
    ((create_contact d c).1.contactmessage = d.contactmessage ++ [⟨d.nextId, c⟩] ∧
     (create_contact d c).2.inserted_id = toString d.nextId ∧
     (create_contact d c).1.product = d.product ∧
     (create_contact d c).1.order = d.order ∧
     (create_contact d c).1.testimonial = d.testimonial) :=
  ⟨⟨rfl, rfl, rfl, rfl, rfl⟩, ⟨rfl, rfl, rfl, rfl, rfl⟩⟩

/-- C7 witness: concrete insertion of a testimonial and a contact message
into the one-product database. -/
theorem insert_endpoints_frame_spec_witness :
    (create_testimonial egDB egTestimonial).1.testimonial
        = egDB.testimonial ++ [⟨egDB.nextId, egTestimonial⟩] ∧
    (create_contact egDB egContact).1.contactmessage
        = egDB.contactmessage ++ [⟨egDB.nextId, egContact⟩] ∧
    (create_testimonial egDB egTestimonial).1.order = egDB.order :=
  ⟨(insert_endpoints_frame_spec egDB egTestimonial egContact (by constructor <;> decide)).1.1,
   (insert_endpoints_frame_spec egDB egTestimonial egContact (by constructor <;> decide)).2.1,
   (insert_endpoints_frame_spec egDB egTestimonial egContact (by constructor <;> decide)).1.2.2.2.1⟩

/-- C2: `payment_notify` on an existing order sets the stored status to
"delivered" when the notification status is "paid" and to "failed" for
every other status string, returns `updated = true` with the resulting
status, and touches no other order document; when no order has the code
it returns 404 "Order not found" and leaves the database unchanged. -/
theorem payment_notify_spec (d : DB) (pl : PaymentNotify) (now : Nat) :
    (d.order.find? (fun od => od.doc.order_code == some pl.order_code) = none →
      payment_notify d pl now = (d, Except.error ⟨404, "Order not found"⟩)) ∧
    (∀ od, d.order.find? (fun od => od.doc.order_code == some pl.order_code) = some od →
      ∃ d' resp, payment_notify d pl now = (d', Except.ok resp) ∧
        resp.updated = true ∧
        resp.status = (if pl.status = "paid" then "delivered" else "failed") ∧
        (∃ x, x ∈ d'.order ∧ x.oid = od.oid ∧ x.doc.status = resp.status) ∧
        (∀ x, x ∈ d'.order → x.oid ≠ od.oid → x ∈ d.order) ∧
        d'.order.length = d.order.length) := by
  constructor
  · intro hf
    simp [payment_notify, hf]
  · intro od hf
    have hmem := List.mem_of_find?_eq_some hf
    by_cases hp : pl.status = "paid"
    · have hrun : payment_notify d pl now =
        ({ d with order := (updateFirst (fun x => x.oid == od.oid)
            (paidUpdate (deliveryPayloadFor pl.order_code) now) d.order) },
         Except.ok ⟨true, "delivered", some (deliveryPayloadFor pl.order_code)⟩) := by
        simp [payment_notify, hf, hp]
      refine ⟨_, _, hrun, rfl, by simp [hp], ?_, ?_, ?_⟩
      · obtain ⟨x, hx, hpx, hfx⟩ :=
          updateFirst_exists (fun x => x.oid == od.oid)
            (paidUpdate (deliveryPayloadFor pl.order_code) now)
            ⟨od, hmem, by simp⟩
        exact ⟨paidUpdate (deliveryPayloadFor pl.order_code) now x, hfx,
          by simpa [paidUpdate] using hpx, by simp [paidUpdate, hp]⟩
      · intro x hx hne
        rcases mem_updateFirst _ _ hx with h | ⟨z, hz, hpz, hxz⟩
        · exact h
        · exact absurd (by simpa [hxz, paidUpdate] using hpz) hne
      · exact updateFirst_length _ _ _
    · have hrun : payment_notify d pl now =
        ({ d with order := (updateFirst (fun x => x.oid == od.oid)
            (failedUpdate "failed" now) d.order) },
         Except.ok ⟨true, "failed", none⟩) := by
        simp [payment_notify, hf, hp]
      refine ⟨_, _, hrun, rfl, by simp [hp], ?_, ?_, ?_⟩
      · obtain ⟨x, hx, hpx, hfx⟩ :=
          updateFirst_exists (fun x => x.oid == od.oid)
            (failedUpdate "failed" now)
            ⟨od, hmem, by simp⟩
        exact ⟨failedUpdate "failed" now x, hfx,
          by simpa [failedUpdate] using hpx, by simp [failedUpdate, hp]⟩
      · intro x hx hne
        rcases mem_updateFirst _ _ hx with h | ⟨z, hz, hpz, hxz⟩
        · exact h
        · exact absurd (by simpa [hxz, failedUpdate] using hpz) hne
      · exact updateFirst_length _ _ _

/-- C2 witness: on a concrete database, an unknown order code yields the
404 error without change, and a "paid" notification on the stored order
succeeds with `updated = true` and status "delivered". -/
theorem payment_notify_spec_witness :
    payment_notify egDBOrders ⟨"NOPE", "paid"⟩ 7
        = (egDBOrders, Except.error ⟨404, "Order not found"⟩) ∧
    ∃ d' resp, payment_notify egDBOrders ⟨"NS-20250101", "paid"⟩ 7 = (d', Except.ok resp) ∧
      resp.updated = true ∧ resp.status = "delivered" := by
  constructor
  · exact (payment_notify_spec egDBOrders ⟨"NOPE", "paid"⟩ 7).1 (by decide)
  · obtain ⟨d', resp, h1, h2, h3, _⟩ :=
      (payment_notify_spec egDBOrders ⟨"NS-20250101", "paid"⟩ 7).2 ⟨2, egOrder⟩ (by decide)
    exact ⟨d', resp, h1, h2, by simpa using h3⟩

/-- C3: on a "paid" notification for an existing order, the delivered
credentials are a function of the order code alone: username
`demo_` ++ lowercased code ++ `@nasirstore.io`, password the constant
`AutoGenerated123!`; the same payload is stored on the order as
`delivered_payload` and returned in the response. -/
theorem payment_notify_credentials_spec (d : DB) (pl : PaymentNotify) (now : Nat)
    (od : OrderDoc)
    (hf : d.order.find? (fun x => x.doc.order_code == some pl.order_code) = some od)
    (hp : pl.status = "paid") :
    ∃ d' resp dp, payment_notify d pl now = (d', Except.ok resp) ∧
      dp.username = "demo_" ++ pl.order_code.toLower ++ "@nasirstore.io" ∧
      dp.password = "AutoGenerated123!" ∧
      resp.delivered_payload = some dp ∧
      resp.status = "delivered" ∧
      ∃ x, x ∈ d'.order ∧ x.oid = od.oid ∧
        x.doc.delivered_payload = some dp ∧ x.doc.status = "delivered" := by
  have hmem := List.mem_of_find?_eq_some hf
  have hrun : payment_notify d pl now =
      ({ d with order := (updateFirst (fun x => x.oid == od.oid)
          (paidUpdate (deliveryPayloadFor pl.order_code) now) d.order) },
       Except.ok ⟨true, "delivered", some (deliveryPayloadFor pl.order_code)⟩) := by
    simp [payment_notify, hf, hp]
  refine ⟨_, _, deliveryPayloadFor pl.order_code, hrun, rfl, rfl, rfl, rfl, ?_⟩
  obtain ⟨x, hx, hpx, hfx⟩ :=
    updateFirst_exists (fun x => x.oid == od.oid)
      (paidUpdate (deliveryPayloadFor pl.order_code) now)
      ⟨od, hmem, by simp⟩
  exact ⟨paidUpdate (deliveryPayloadFor pl.order_code) now x, hfx,
    by simpa [paidUpdate] using hpx, rfl, rfl⟩

/-- C3 witness: concrete paid notification; the credentials are
`demo_ns-20250101@nasirstore.io` / `AutoGenerated123!`, stored and
returned. -/
theorem payment_notify_credentials_spec_witness :
    ∃ d' resp dp,
      payment_notify egDBOrders ⟨"NS-20250101", "paid"⟩ 9 = (d', Except.ok resp) ∧
      dp.username = "demo_" ++ "NS-20250101".toLower ++ "@nasirstore.io" ∧
      dp.password = "AutoGenerated123!" ∧
      resp.delivered_payload = some dp ∧
      ∃ x, x ∈ d'.order ∧ x.doc.delivered_payload = some dp := by
  obtain ⟨d', resp, dp, h1, h2, h3, h4, h5, x, hx1, hx2, hx3, hx4⟩ :=
    payment_notify_credentials_spec egDBOrders ⟨"NS-20250101", "paid"⟩ 9 ⟨2, egOrder⟩
      (by decide) rfl
  exact ⟨d', resp, dp, h1, h2, h3, h4, x, hx1, hx3⟩

theorem create_order_run {emailOk : String → Bool} {d : DB} {pl : OrderCreate}
    {now : String} {pd : ProductDoc} {m : ℚ}
    (hf : d.product.find? (fun x => x.doc.slug == pl.product_slug) = some pd)
    (hm : packageMultiplier pl.package = some m)
    (hv : orderSchemaValid emailOk
      (builtOrder pd pl (pd.doc.price_monthly.getD 0 * m) (generate_order_code now)) = true) :
    create_order emailOk d pl now =
      ({ d with
          order := d.order ++
            [⟨d.nextId,
              builtOrder pd pl (pd.doc.price_monthly.getD 0 * m) (generate_order_code now)⟩],
          nextId := d.nextId + 1 },
       Except.ok
         { order_id := toString d.nextId,
           order_code := generate_order_code now,
           status := "pending",
           amount := pd.doc.price_monthly.getD 0 * m,
           product_name := pd.doc.name,
           package := pl.package,
           payment := payment_instructions pl.payment_method }) := by
  simp only [create_order, hf, hm, hv, if_true, insertOrder]

theorem create_order_invalid {emailOk : String → Bool} {d : DB} {pl : OrderCreate}
    {now : String} {pd : ProductDoc} {m : ℚ}
    (hf : d.product.find? (fun x => x.doc.slug == pl.product_slug) = some pd)
    (hm : packageMultiplier pl.package = some m)
    (hv : orderSchemaValid emailOk
      (builtOrder pd pl (pd.doc.price_monthly.getD 0 * m) (generate_order_code now)) = false) :
    create_order emailOk d pl now = (d, Except.error ⟨500, "Internal Server Error"⟩) := by
  simp [create_order, hf, hm, hv]

theorem create_order_ok_payment {emailOk : String → Bool} {d d' : DB} {pl : OrderCreate}
    {now : String} {r : OrderResponse}
    (h : create_order emailOk d pl now = (d', Except.ok r)) :
    r.payment = payment_instructions pl.payment_method := by
  cases hf : d.product.find? (fun x => x.doc.slug == pl.product_slug) with
  | none => simp [create_order, hf] at h
  | some pd =>
    cases hm : packageMultiplier pl.package with
    | none => simp [create_order, hf, hm] at h
    | some m =>
      by_cases hv : orderSchemaValid emailOk
          (builtOrder pd pl (pd.doc.price_monthly.getD 0 * m) (generate_order_code now)) = true
      · rw [@create_order_run emailOk d pl now pd m hf hm hv] at h
        obtain ⟨-, hr⟩ := Prod.mk.injEq .. ▸ h
        cases hr
        rfl
      · rw [Bool.not_eq_true] at hv
        rw [@create_order_invalid emailOk d pl now pd m hf hm hv] at h
        exact absurd (congrArg Prod.snd h) (by simp)

theorem egHv1 : orderSchemaValid egEmailOk
    (builtOrder ⟨1, egProduct⟩ egOC
      ((⟨1, egProduct⟩ : ProductDoc).doc.price_monthly.getD 0 * 3)
      (generate_order_code "T1")) = true := by
  have hp : (0 : ℚ) ≤ (⟨1, egProduct⟩ : ProductDoc).doc.price_monthly.getD 0 * 3 := by
    norm_num [egProduct]
  have hc : egEmailOk "budi@example.com" = true := by decide
  simp [orderSchemaValid, builtOrder, egOC, hp, hc]

theorem egHv2 : orderSchemaValid egEmailOk
    (builtOrder ⟨1, egProduct⟩ egOC2
      ((⟨1, egProduct⟩ : ProductDoc).doc.price_monthly.getD 0 * 1)
      (generate_order_code "T2")) = true := by
  have hp : (0 : ℚ) ≤ (⟨1, egProduct⟩ : ProductDoc).doc.price_monthly.getD 0 := by
    norm_num [egProduct]
  have hc : egEmailOk "sari@example.com" = true := by decide
  simp [orderSchemaValid, builtOrder, egOC2, hp, hc]

theorem egHv3 : orderSchemaValid egEmailOk
    (builtOrder ⟨1, egProductInactive⟩ egOC
      ((⟨1, egProductInactive⟩ : ProductDoc).doc.price_monthly.getD 0 * 3)
      (generate_order_code "T1")) = true := by
  have hp : (0 : ℚ) ≤ (⟨1, egProductInactive⟩ : ProductDoc).doc.price_monthly.getD 0 * 3 := by
    norm_num [egProductInactive, egProduct]
  have hc : egEmailOk "budi@example.com" = true := by decide
  simp [orderSchemaValid, builtOrder, egOC, hp, hc]

/-- C1: for a matching product and a request passing the `OrderSchema`
validation, the order price (stored and returned as `amount`) is
`price_monthly` (0 when absent) times the fixed table value
(1, 3, 6, 12, 20); any package outside the table yields HTTP 400
"Invalid package"; and `price_lifetime` and `durations` are never
consulted (two databases differing only in those fields produce the same
response and the same order collection). -/
theorem create_order_price_spec :
    (∀ (emailOk : String → Bool) (d : DB) (pl : OrderCreate) (now : String) (pd : ProductDoc),
      d.product.find? (fun x => x.doc.slug == pl.product_slug) = some pd →
      (∀ m, packageMultiplier pl.package = some m →
        orderSchemaValid emailOk
          (builtOrder pd pl (pd.doc.price_monthly.getD 0 * m) (generate_order_code now))
            = true →
        ∃ d' resp, create_order emailOk d pl now = (d', Except.ok resp) ∧
          resp.amount = pd.doc.price_monthly.getD 0 * m ∧
          ∃ od, d'.order = d.order ++ [od] ∧ od.doc.price = resp.amount ∧
            od.doc.status = "pending") ∧
      (packageMultiplier pl.package = none →
        create_order emailOk d pl now = (d, Except.error ⟨400, "Invalid package"⟩))) ∧
    (packageMultiplier "1 Month" = some 1 ∧ packageMultiplier "3 Months" = some 3 ∧
     packageMultiplier "6 Months" = some 6 ∧ packageMultiplier "12 Months" = some 12 ∧
     packageMultiplier "Lifetime" = some 20 ∧
     ∀ s, s ∉ ["1 Month", "3 Months", "6 Months", "12 Months", "Lifetime"] →
       packageMultiplier s = none) ∧
    (∀ (emailOk : String → Bool) (d1 d2 : DB) (pl : OrderCreate) (now : String),
      d1.order = d2.order → d1.nextId = d2.nextId →
      d1.product.map scrubDoc = d2.product.map scrubDoc →
      (create_order emailOk d1 pl now).2 = (create_order emailOk d2 pl now).2 ∧
      (create_order emailOk d1 pl now).1.order
        = (create_order emailOk d2 pl now).1.order) := by
  refine ⟨?_, ⟨by decide, by decide, by decide, by decide, by decide, ?_⟩, ?_⟩
  · intro emailOk d pl now pd hfind
    constructor
    · intro m hm hv
      rw [@create_order_run emailOk d pl now pd m hfind hm hv]
      exact ⟨_, _, rfl, rfl,
        ⟨d.nextId,
          builtOrder pd pl (pd.doc.price_monthly.getD 0 * m) (generate_order_code now)⟩,
        rfl, rfl, rfl⟩
    · intro hm
      simp [create_order, hfind, hm]
  · intro s hs
    simp only [List.mem_cons, List.not_mem_nil, or_false, not_or] at hs
    obtain ⟨h1, h2, h3, h4, h5⟩ := hs
    simp [packageMultiplier, h1, h2, h3, h4, h5]
  · intro emailOk d1 d2 pl now hord hnext hprod
    have e1 : (d1.product.map scrubDoc).find? (fun x => x.doc.slug == pl.product_slug)
        = (d1.product.find? (fun x => x.doc.slug == pl.product_slug)).map scrubDoc :=
      find?_map_eq scrubDoc _ d1.product
    have e2 : (d2.product.map scrubDoc).find? (fun x => x.doc.slug == pl.product_slug)
        = (d2.product.find? (fun x => x.doc.slug == pl.product_slug)).map scrubDoc :=
      find?_map_eq scrubDoc _ d2.product
    have key : (d1.product.find? (fun x => x.doc.slug == pl.product_slug)).map scrubDoc
        = (d2.product.find? (fun x => x.doc.slug == pl.product_slug)).map scrubDoc := by
      rw [← e1, ← e2, hprod]
    cases hf1 : d1.product.find? (fun x => x.doc.slug == pl.product_slug) with
    | none =>
      cases hf2 : d2.product.find? (fun x => x.doc.slug == pl.product_slug) with
      | none => constructor <;> simp [create_order, hf1, hf2, hord]
      | some pd2 => rw [hf1, hf2] at key; simp at key
    | some pd1 =>
      cases hf2 : d2.product.find? (fun x => x.doc.slug == pl.product_slug) with
      | none => rw [hf1, hf2] at key; simp at key
      | some pd2 =>
        rw [hf1, hf2] at key
        have key2 : scrubDoc pd1 = scrubDoc pd2 := by simpa using key
        have hoid : pd1.oid = pd2.oid := by
          simpa [scrubDoc] using congrArg ProductDoc.oid key2
        have hname : pd1.doc.name = pd2.doc.name := by
          simpa [scrubDoc, scrub] using congrArg (fun x => x.doc.name) key2
        have hpm : pd1.doc.price_monthly = pd2.doc.price_monthly := by
          simpa [scrubDoc, scrub] using congrArg (fun x => x.doc.price_monthly) key2
        cases hm : packageMultiplier pl.package with
        | none => constructor <;> simp [create_order, hf1, hf2, hm, hord]
        | some m =>
          have hb : builtOrder pd1 pl (pd1.doc.price_monthly.getD 0 * m)
                (generate_order_code now)
              = builtOrder pd2 pl (pd2.doc.price_monthly.getD 0 * m)
                (generate_order_code now) := by
            simp [builtOrder, hoid, hname, hpm]
          by_cases hv : orderSchemaValid emailOk
              (builtOrder pd1 pl (pd1.doc.price_monthly.getD 0 * m)
                (generate_order_code now)) = true
          · have hv2 : orderSchemaValid emailOk
                (builtOrder pd2 pl (pd2.doc.price_monthly.getD 0 * m)
                  (generate_order_code now)) = true := hb ▸ hv
            have hb2 : builtOrder pd1 pl (pd2.doc.price_monthly.getD 0 * m)
                  (generate_order_code now)
                = builtOrder pd2 pl (pd2.doc.price_monthly.getD 0 * m)
                  (generate_order_code now) := by
              simp [builtOrder, hoid, hname]
            rw [@create_order_run emailOk d1 pl now pd1 m hf1 hm hv,
              @create_order_run emailOk d2 pl now pd2 m hf2 hm hv2]
            constructor <;> simp [hord, hnext, hoid, hname, hpm, hb2]
          · rw [Bool.not_eq_true] at hv
            have hv2 : orderSchemaValid emailOk
                (builtOrder pd2 pl (pd2.doc.price_monthly.getD 0 * m)
                  (generate_order_code now)) = false := hb ▸ hv
            rw [@create_order_invalid emailOk d1 pl now pd1 m hf1 hm hv,
              @create_order_invalid emailOk d2 pl now pd2 m hf2 hm hv2]
            exact ⟨rfl, hord⟩

/-- C1 witness: on the concrete database, the "3 Months" package prices
the order at three times `price_monthly` (stored and returned), and the
unknown package "Weekly" yields HTTP 400 "Invalid package". -/
theorem create_order_price_spec_witness :
    (∃ d' resp, create_order egEmailOk egDB egOC "T1" = (d', Except.ok resp) ∧
      resp.amount = (⟨1, egProduct⟩ : ProductDoc).doc.price_monthly.getD 0 * 3 ∧
      ∃ od, d'.order = egDB.order ++ [od] ∧ od.doc.price = resp.amount ∧
        od.doc.status = "pending") ∧
    create_order egEmailOk egDB egOCBad "T1"
        = (egDB, Except.error ⟨400, "Invalid package"⟩) :=
  ⟨(create_order_price_spec.1 egEmailOk egDB egOC "T1" ⟨1, egProduct⟩
      (by decide)).1 3 (by decide) egHv1,
   (create_order_price_spec.1 egEmailOk egDB egOCBad "T1" ⟨1, egProduct⟩
      (by decide)).2 (by decide)⟩

/-- C4: the `payment` object returned by `create_order` is a function of
`payment_method` alone — any two successful calls with the same
payment-method string receive identical payment instructions — and every
string other than QRIS, Bank Transfer and E-Wallet receives the fixed
fallback entry. -/
theorem create_order_payment_method_only :
    (∀ (ek1 ek2 : String → Bool) (d1 d2 : DB) (pl1 pl2 : OrderCreate) (now1 now2 : String)
        (d1' d2' : DB) (r1 r2 : OrderResponse),
      create_order ek1 d1 pl1 now1 = (d1', Except.ok r1) →
      create_order ek2 d2 pl2 now2 = (d2', Except.ok r2) →
      pl1.payment_method = pl2.payment_method →
      r1.payment = r2.payment) ∧
    (∀ pm, pm ≠ "QRIS" → pm ≠ "Bank Transfer" → pm ≠ "E-Wallet" →
      payment_instructions pm = [("type", "info"), ("note", "Follow admin instruction")]) := by
  constructor
  · intro ek1 ek2 d1 d2 pl1 pl2 now1 now2 d1' d2' r1 r2 h1 h2 hpm
    rw [create_order_ok_payment h1, create_order_ok_payment h2, hpm]
  · intro pm h1 h2 h3
    simp [payment_instructions, h1, h2, h3]

/-- C4 witness: two concrete orders for different packages and buyers but
the same payment method receive identical payment instructions. -/
theorem create_order_payment_method_only_witness :
    ∃ d1 r1 d2 r2, create_order egEmailOk egDB egOC "T1" = (d1, Except.ok r1) ∧
      create_order egEmailOk egDB egOC2 "T2" = (d2, Except.ok r2) ∧
      r1.payment = r2.payment := by
  have ha := @create_order_run egEmailOk egDB egOC "T1" ⟨1, egProduct⟩ 3
    (by decide) (by decide) egHv1
  have hb := @create_order_run egEmailOk egDB egOC2 "T2" ⟨1, egProduct⟩ 1
    (by decide) (by decide) egHv2
  exact ⟨_, _, _, _, ha, hb,
    create_order_payment_method_only.1 egEmailOk egEmailOk egDB egDB egOC egOC2 "T1" "T2"
      _ _ _ _ ha hb rfl⟩

/-- C6: every document returned by `list_products` is active, satisfies
the category and featured filters when given, and matches the
case-insensitive search in name, description or short description when
`q` is given; at most `limit` documents are returned, `limit` being
accepted only between 1 and 200, with default 100. -/
theorem list_products_filter_spec (rmatch : String → String → Bool) (d : DB)
    (q category : Option String) (featured : Option Bool) (limit : Nat) :
    (1 ≤ limit ∧ limit ≤ 200 →
      ∃ docs, list_products rmatch d q category featured limit = Except.ok docs ∧
        docs.length ≤ limit ∧
        ∀ x, x ∈ docs → ∃ pd,
          pd ∈ d.product ∧ x = productToDict pd ∧ pd.doc.is_active = true ∧
          (∀ c, category = some c → c ≠ "" → pd.doc.category = c) ∧
          (∀ b, featured = some b → pd.doc.is_featured = b) ∧
          (∀ s, q = some s → s ≠ "" →
            (rmatch s pd.doc.name || rmatch s pd.doc.description ||
              rmatch s pd.doc.short_description) = true)) ∧
    (¬(1 ≤ limit ∧ limit ≤ 200) →
      list_products rmatch d q category featured limit = Except.error ⟨422, "Invalid limit"⟩) ∧
    list_products_default_limit = 100 := by
  refine ⟨?_, ?_, rfl⟩
  · intro hl
    refine ⟨((d.product.filter fun pd =>
        productMatches rmatch q category featured pd.doc).take limit).map productToDict,
      by simp [list_products, hl], ?_, ?_⟩
    · simp only [List.length_map, List.length_take]
      exact Nat.min_le_left _ _
    · intro x hx
      simp only [List.mem_map] at hx
      obtain ⟨pd, hpd, hxeq⟩ := hx
      have hmem := List.mem_filter.mp (List.mem_of_mem_take hpd)
      obtain ⟨hmemP, hmatch⟩ := hmem
      simp only [productMatches, Bool.and_eq_true] at hmatch
      obtain ⟨⟨⟨hact, hcat⟩, hfeat⟩, hq⟩ := hmatch
      refine ⟨pd, hmemP, hxeq.symm, hact, ?_, ?_, ?_⟩
      · intro c hc hcne
        subst hc
        simp only [hcne, beq_iff_eq, if_neg, beq_eq_false_iff_ne] at hcat
        simpa using hcat
      · intro b hb
        subst hb
        simpa using hfeat
      · intro s hs hsne
        subst hs
        simpa [hsne] using hq
  · intro hl
    simp [list_products, hl]

/-- C6 witness: a concrete valid query returns at most 100 documents, and
limit 201 is rejected with a 422. -/
theorem list_products_filter_spec_witness :
    (∃ docs, list_products (fun p s => p == s) egDB none none none 100 = Except.ok docs ∧
      docs.length ≤ 100) ∧
    list_products (fun p s => p == s) egDB none none none 201
        = Except.error ⟨422, "Invalid limit"⟩ := by
  constructor
  · obtain ⟨docs, h1, h2, -⟩ :=
      (list_products_filter_spec (fun p s => p == s) egDB none none none 100).1 (by decide)
    exact ⟨docs, h1, h2⟩
  · exact (list_products_filter_spec (fun p s => p == s) egDB none none none 201).2.1
      (by decide)

/-- C8: `create_order` does not check `is_active`: when every product with
the requested slug is inactive and the slug-only lookup finds one, a
validating request makes `get_product` on that slug raise 404 while
`create_order` succeeds, creating a pending order priced from the
inactive product. -/
theorem create_order_ignores_is_active (emailOk : String → Bool) (d : DB)
    (pl : OrderCreate) (now : String) (m : ℚ) (pd : ProductDoc)
    (hfind : d.product.find? (fun x => x.doc.slug == pl.product_slug) = some pd)
    (hall : ∀ x, x ∈ d.product → x.doc.slug = pl.product_slug → x.doc.is_active = false)
    (hm : packageMultiplier pl.package = some m)
    (hv : orderSchemaValid emailOk
      (builtOrder pd pl (pd.doc.price_monthly.getD 0 * m) (generate_order_code now))
        = true) :
    get_product d pl.product_slug = Except.error ⟨404, "Product not found"⟩ ∧
    pd.doc.is_active = false ∧
    ∃ d' resp,
      create_order emailOk d pl now = (d', Except.ok resp) ∧
      resp.status = "pending" ∧
      resp.amount = pd.doc.price_monthly.getD 0 * m ∧
      ∃ od, d'.order = d.order ++ [od] ∧ od.doc.status = "pending" := by
  have hmem := List.mem_of_find?_eq_some hfind
  have hpred := List.find?_some hfind
  simp only [beq_iff_eq] at hpred
  refine ⟨?_, hall pd hmem hpred, ?_⟩
  · have hf : d.product.find?
        (fun x => x.doc.slug == pl.product_slug && x.doc.is_active) = none := by
      refine List.find?_eq_none.mpr ?_
      intro x hx
      simp only [Bool.and_eq_true, beq_iff_eq, not_and]
      intro hslug
      simp [hall x hx hslug]
    simp [get_product, hf]
  · rw [@create_order_run emailOk d pl now pd m hfind hm hv]
    exact ⟨_, _, rfl, rfl, rfl,
      ⟨d.nextId,
        builtOrder pd pl (pd.doc.price_monthly.getD 0 * m) (generate_order_code now)⟩,
      rfl, rfl⟩

/-- C8 witness: on a database whose only product (slug netflix-premium) is
inactive, `get_product` raises 404 while `create_order` succeeds with a
pending order priced at three times the inactive product's monthly price. -/
theorem create_order_ignores_is_active_witness :
    get_product egDBInactive "netflix-premium" = Except.error ⟨404, "Product not found"⟩ ∧
    (⟨1, egProductInactive⟩ : ProductDoc).doc.is_active = false ∧
    ∃ d' resp,
      create_order egEmailOk egDBInactive egOC "T1" = (d', Except.ok resp) ∧
      resp.status = "pending" ∧
      resp.amount = (⟨1, egProductInactive⟩ : ProductDoc).doc.price_monthly.getD 0 * 3 ∧
      ∃ od, d'.order = egDBInactive.order ++ [od] ∧ od.doc.status = "pending" :=
  create_order_ignores_is_active egEmailOk egDBInactive egOC "T1" 3 ⟨1, egProductInactive⟩
    (by decide) (by decide) (by decide) egHv3

/-- C9: `seed_products` is idempotent: it seeds the five sample products
only when the product collection is empty (returning `seeded = true`,
`count = 5`), inserts nothing otherwise (returning `seeded = false`), and
a second run immediately after a first leaves the database unchanged. -/
theorem seed_products_idempotent (d : DB) :
    (d.product = [] →
      (seed_products d).2 = ⟨true, some 5, none⟩ ∧
      (seed_products d).1.product.map ProductDoc.doc = sampleProducts) ∧
    (d.product ≠ [] →
      seed_products d = (d, ⟨false, none, some "Products already exist"⟩)) ∧
    seed_products (seed_products d).1
      = ((seed_products d).1, ⟨false, none, some "Products already exist"⟩) := by
  have hstep : ∀ e : DB, e.product ≠ [] →
      seed_products e = (e, ⟨false, none, some "Products already exist"⟩) := by
    intro e he
    have hlen : e.product.length > 0 := List.length_pos.mpr he
    simp [seed_products, hlen]
  by_cases h : d.product = []
  · have hcond : ¬ d.product.length > 0 := by simp [h]
    have hfirst : (seed_products d).1
        = sampleProducts.foldl (fun acc p => (insertProduct acc p).1) d := by
      simp [seed_products, hcond]
    have hdoc : (seed_products d).1.product.map ProductDoc.doc = sampleProducts := by
      rw [hfirst, seedFold_product_doc, h]
      simp
    refine ⟨fun _ => ⟨?_, hdoc⟩, fun hc => absurd h hc, ?_⟩
    · simp only [seed_products, hcond, if_neg, not_false_iff]
      rfl
    · have hne : (seed_products d).1.product ≠ [] := by
        intro hnil
        rw [hnil] at hdoc
        simp [sampleProducts] at hdoc
      exact hstep _ hne
  · have hrun := hstep d h
    refine ⟨fun hc => absurd hc h, fun _ => hrun, ?_⟩
    rw [hrun]
    exact hstep d h

/-- C9 witness: seeding the empty database reports five products seeded;
seeding the non-empty one-product database changes nothing. -/
theorem seed_products_idempotent_witness :
    (seed_products egEmptyDB).2 = ⟨true, some 5, none⟩ ∧
    seed_products egDB = (egDB, ⟨false, none, some "Products already exist"⟩) :=
  ⟨((seed_products_idempotent egEmptyDB).1 rfl).1,
   (seed_products_idempotent egDB).2.1 (by decide)⟩

/-- C10: every order status ever written by the API lies in
{pending, delivered, failed}: `create_order` only appends pending orders,
`payment_notify` only writes delivered or failed, and the remaining
endpoints never touch the order collection — so the status "paid"
permitted by the `Order` schema is never stored. -/
theorem api_order_status_invariant :
    (∀ (emailOk : String → Bool) (d : DB) (pl : OrderCreate) (now : String) (x : OrderDoc),
      x ∈ (create_order emailOk d pl now).1.order →
        x ∈ d.order ∨ x.doc.status = "pending") ∧
    (∀ (d : DB) (pl : PaymentNotify) (now : Nat) (x : OrderDoc),
      x ∈ (payment_notify d pl now).1.order →
        x ∈ d.order ∨ x.doc.status = "delivered" ∨ x.doc.status = "failed") ∧
    (∀ d : DB, (seed_products d).1.order = d.order) ∧
    (∀ (d : DB) (t : Testimonial), (create_testimonial d t).1.order = d.order) ∧
    (∀ (d : DB) (c : ContactMessage), (create_contact d c).1.order = d.order) := by
  refine ⟨?_, ?_, ?_, fun d t => rfl, fun d c => rfl⟩
  · intro emailOk d pl now x hx
    cases hf : d.product.find? (fun y => y.doc.slug == pl.product_slug) with
    | none =>
      left
      simpa [create_order, hf] using hx
    | some pd =>
      cases hm : packageMultiplier pl.package with
      | none =>
        left
        simpa [create_order, hm, hf] using hx
      | some m =>
        by_cases hv : orderSchemaValid emailOk
            (builtOrder pd pl (pd.doc.price_monthly.getD 0 * m)
              (generate_order_code now)) = true
        · rw [@create_order_run emailOk d pl now pd m hf hm hv] at hx
          simp only [List.mem_append, List.mem_singleton] at hx
          rcases hx with h | h
          · exact Or.inl h
          · right
            rw [h]
            rfl
        · rw [Bool.not_eq_true] at hv
          left
          rw [@create_order_invalid emailOk d pl now pd m hf hm hv] at hx
          exact hx
  · intro d pl now x hx
    cases hf : d.order.find? (fun y => y.doc.order_code == some pl.order_code) with
    | none =>
      left
      simpa [payment_notify, hf] using hx
    | some od =>
      by_cases hp : pl.status = "paid"
      · have hupd : (payment_notify d pl now).1.order
            = updateFirst (fun y => y.oid == od.oid)
                (paidUpdate (deliveryPayloadFor pl.order_code) now) d.order := by
          simp [payment_notify, hf, hp]
        rw [hupd] at hx
        rcases mem_updateFirst _ _ hx with h | ⟨z, hz, hpz, hxz⟩
        · exact Or.inl h
        · exact Or.inr (Or.inl (by simp [hxz, paidUpdate]))
      · have hupd : (payment_notify d pl now).1.order
            = updateFirst (fun y => y.oid == od.oid)
                (failedUpdate "failed" now) d.order := by
          simp [payment_notify, hf, hp]
        rw [hupd] at hx
        rcases mem_updateFirst _ _ hx with h | ⟨z, hz, hpz, hxz⟩
        · exact Or.inl h
        · exact Or.inr (Or.inr (by simp [hxz, failedUpdate]))
  · intro d
    by_cases h : d.product.length > 0
    · simp [seed_products, h]
    · simp only [seed_products, h, if_neg, not_false_iff]
      exact (seedFold_frame sampleProducts d).1

/-- C10 witness: the concrete order created by `create_order` has status
"pending", and `seed_products` leaves the order collection unchanged. -/
theorem api_order_status_invariant_witness :
    (egCreatedOrderDoc ∈ egDB.order ∨ egCreatedOrderDoc.doc.status = "pending") ∧
    (seed_products egDB).1.order = egDB.order :=
  ⟨api_order_status_invariant.1 egEmailOk egDB egOC "T1" egCreatedOrderDoc
      (by rw [@create_order_run egEmailOk egDB egOC "T1" ⟨1, egProduct⟩ 3
                (by decide) (by decide) egHv1]
          exact List.mem_append_right _ (List.mem_singleton.mpr rfl)),
   api_order_status_invariant.2.2.1 egDB⟩

end NasirStore
